import Mathlib

/-!
Shallow embedding of src/device_comm_full.py (Signal-Scanner).

External effects (OS scans, sockets, subprocess, file writes) are modelled by
outcome oracles of type Except String α: an Except.error models a raised
Python exception, Except.ok the value the library call returned.  Every
embedded function returns its observable effect trace (a List Event) next to
an Except String result; an Except.error in that result models an exception
escaping the function.  Record dictionaries are association lists in
insertion order, and the json module (dump/load) is modelled by an executable
serializer and parser over those records, proved to round-trip.
-/

namespace Scanner

/-- A Python value as it occurs in this program's record dictionaries:
None, a string, or an int. -/
inductive PyVal : Type
  | vNull : PyVal
  | vStr : String → PyVal
  | vInt : Int → PyVal
deriving DecidableEq, Repr

/-- A record dictionary (keys in insertion order, as Python preserves). -/
abbrev Rec := List (String × PyVal)

/-- What write_json receives at every call site: a list of record dicts. -/
abbrev Data := List Rec

/-- Logging severity levels used by the program. -/
inductive LogLevel : Type
  | debug | info | error | critical
deriving DecidableEq, Repr

/-- Result of subprocess.run for the ping invocation. -/
structure ProcResult : Type where
  returncode : Int
  stdout : String
  stderr : String
deriving DecidableEq, Repr

/-- A file produced by write_json: subdirectory, basename, serialized text. -/
structure WriteEvent : Type where
  subdir : String
  filename : String
  content : String
deriving DecidableEq, Repr

/-- Observable effects of the program, in order of occurrence. -/
inductive Event : Type
  | log : LogLevel → String → Event
  | fileWrite : WriteEvent → Event
  | btAttempt : PyVal → Event
  | pingAttempt : PyVal → List String → Event
deriving DecidableEq, Repr

/-- A Wi-Fi network as returned by the pywifi scan_results call. -/
structure WifiNet : Type where
  ssid : String
  bssid : String
  signal : Int
  freq : Int
deriving DecidableEq, Repr

/-- A classic Bluetooth device as returned by bluetooth.discover_devices. -/
structure BtDev : Type where
  addr : String
  name : String
deriving DecidableEq, Repr

/-- A BLE device as returned by BleakScanner.discover (name may be None). -/
structure BleDev : Type where
  address : String
  name : Option String
  rssi : Int
deriving DecidableEq, Repr

/-! ## Python primitives used by the program -/

/-- Python str.strip() whitespace class (space, tab, newline, cr, vt, ff). -/
def isPySpace (c : Char) : Bool :=
  c = ' ' || c = '\t' || c = '\n' || c = '\r' || c = '\x0b' || c = '\x0c'

/-- Python str.strip(): drop leading and trailing whitespace. -/
def pyStrip (s : String) : String :=
  ⟨((s.data.dropWhile isPySpace).reverse.dropWhile isPySpace).reverse⟩

/-- Python truthiness of the values that occur in records
(used by the `if ap["BSSID"]` test in auto_communicate). -/
def pyTruthy : PyVal → Bool
  | PyVal.vNull => false
  | PyVal.vStr s => s != ""
  | PyVal.vInt n => n != 0

/-- Decimal digit test on a character. -/
def isDigitC (c : Char) : Bool :=
  48 ≤ c.toNat && c.toNat ≤ 57

/-- Numeric value of a decimal digit character. -/
def digitVal (c : Char) : Nat := c.toNat - 48

/-- Character for a decimal digit. -/
def digitChar (d : Nat) : Char := Char.ofNat (48 + d)

/-- Python int(s): strip whitespace, optional sign, decimal digits;
anything else raises ValueError. -/
def pyInt (s : String) : Except String Int :=
  let t := (pyStrip s).data
  let core : Bool × List Char :=
    match t with
    | '-' :: ds => (true, ds)
    | '+' :: ds => (false, ds)
    | ds => (false, ds)
  if !core.2.isEmpty && core.2.all isDigitC then
    let n : Nat := core.2.foldl (fun a c => a * 10 + digitVal c) 0
    Except.ok (if core.1 then -(n : Int) else (n : Int))
  else
    Except.error "ValueError: invalid literal for int"

/-- Python list indexing xs[i]: non-negative indices from the front,
negative indices from the back, IndexError outside [-len, len). -/
def pyIndex {α : Type} (xs : List α) (i : Int) : Except String α :=
  if 0 ≤ i then
    match xs.get? i.toNat with
    | some v => Except.ok v
    | none => Except.error "IndexError: list index out of range"
  else if -(xs.length : Int) ≤ i then
    match xs.get? (i + xs.length).toNat with
    | some v => Except.ok v
    | none => Except.error "IndexError: list index out of range"
  else
    Except.error "IndexError: list index out of range"

/-- Python dict lookup d[k] on a record: KeyError when the key is absent. -/
def getItem (r : Rec) (k : String) : Except String PyVal :=
  match List.lookup k r with
  | some v => Except.ok v
  | none => Except.error ("KeyError: " ++ k)

/-! ## Model of the json module (dump / load) on this program's data

json.dump is modelled by an executable serializer over Data; json.load by an
executable parser.  The indent=4 argument only inserts cosmetic whitespace,
so serialization is modelled in the canonical compact form with the default
item and key separators; the round-trip theorem below shows the written text
parses back to the record set that was passed in. -/

/-- Escape a string body for JSON output (quote and backslash). -/
def escapeChars : List Char → List Char
  | [] => []
  | c :: cs => (if c = '"' || c = '\\' then ['\\', c] else [c]) ++ escapeChars cs

/-- Serialize a string with surrounding quotes. -/
def renderStr (s : String) : List Char :=
  '"' :: escapeChars s.data ++ ['"']

/-- Most-significant-first decimal digits of a natural number. -/
def natDigits (n : Nat) : List Char :=
  if h : n < 10 then [digitChar n]
  else natDigits (n / 10) ++ [digitChar (n % 10)]
termination_by n
decreasing_by exact Nat.div_lt_self (by omega) (by omega)

/-- 10 to the number of digits of n (helper for the parsing round trip). -/
def natBase (n : Nat) : Nat :=
  if h : n < 10 then 10
  else 10 * natBase (n / 10)
termination_by n
decreasing_by exact Nat.div_lt_self (by omega) (by omega)

/-- Serialize an integer in Python's repr form. -/
def renderInt (n : Int) : List Char :=
  if n < 0 then '-' :: natDigits (-n).toNat else natDigits n.toNat

/-- Serialize one record value. -/
def renderVal : PyVal → List Char
  | PyVal.vNull => ['n', 'u', 'l', 'l']
  | PyVal.vStr s => renderStr s
  | PyVal.vInt n => renderInt n

/-- Serialize one key/value entry of a record. -/
def renderEntry (p : String × PyVal) : List Char :=
  renderStr p.1 ++ ':' :: ' ' :: renderVal p.2

/-- Serialize the remaining entries of a record, each led by ", ". -/
def renderEntriesRest : List (String × PyVal) → List Char
  | [] => []
  | p :: ps => ',' :: ' ' :: renderEntry p ++ renderEntriesRest ps

/-- Serialize a record dictionary. -/
def renderRec : Rec → List Char
  | [] => ['{', '}']
  | p :: ps => '{' :: (renderEntry p ++ renderEntriesRest ps ++ ['}'])

/-- Serialize the remaining items of the list, each led by ", ". -/
def renderItemsRest : Data → List Char
  | [] => []
  | r :: rs => ',' :: ' ' :: renderRec r ++ renderItemsRest rs

/-- Serialize the full record list. -/
def renderData : Data → List Char
  | [] => ['[', ']']
  | r :: rs => '[' :: (renderRec r ++ renderItemsRest rs ++ [']'])

/-- Model of json.dumps on the record sets this program writes. -/
def dumps (d : Data) : String := ⟨renderData d⟩

/-- Parse a string body up to the closing quote, undoing escapes. -/
def parseStrGo : List Char → Option (List Char × List Char)
  | [] => none
  | '\\' :: [] => none
  | '\\' :: c :: cs => (parseStrGo cs).map (fun p => (c :: p.1, p.2))
  | '"' :: cs => some ([], cs)
  | c :: cs => (parseStrGo cs).map (fun p => (c :: p.1, p.2))

/-- Consume leading decimal digits, accumulating their value. -/
def parseNatGo (acc : Nat) : List Char → Nat × List Char
  | [] => (acc, [])
  | c :: cs => if isDigitC c then parseNatGo (acc * 10 + digitVal c) cs else (acc, c :: cs)

/-- rest starts with a non-digit (or is empty). -/
def noDigitStart : List Char → Bool
  | [] => true
  | c :: _ => !(isDigitC c)

/-- Parse one record value (null, string, or integer). -/
def parseVal (cs : List Char) : Option (PyVal × List Char) :=
  match cs with
  | [] => none
  | c :: rest =>
    if c = '"' then
      (parseStrGo rest).map (fun p => (PyVal.vStr ⟨p.1⟩, p.2))
    else if c = '-' then
      match rest with
      | [] => none
      | c2 :: _ =>
        if isDigitC c2 then
          let p := parseNatGo 0 rest
          some (PyVal.vInt (-(p.1 : Int)), p.2)
        else none
    else if isDigitC c then
      let p := parseNatGo 0 (c :: rest)
      some (PyVal.vInt (p.1 : Int), p.2)
    else
      match c :: rest with
      | 'n' :: 'u' :: 'l' :: 'l' :: rest2 => some (PyVal.vNull, rest2)
      | _ => none

/-- Parse the non-empty entry sequence of a record, up to the closing brace.
The fuel bounds the number of entries; callers pass the input length. -/
def parseEntriesGo : Nat → List Char → Option (Rec × List Char)
  | 0, _ => none
  | fuel + 1, cs =>
    match cs with
    | '"' :: cs1 =>
      match parseStrGo cs1 with
      | none => none
      | some (k, cs2) =>
        match cs2 with
        | ':' :: ' ' :: cs3 =>
          match parseVal cs3 with
          | none => none
          | some (v, cs4) =>
            match cs4 with
            | ',' :: ' ' :: cs5 =>
              (parseEntriesGo fuel cs5).map (fun p => (((⟨k⟩ : String), v) :: p.1, p.2))
            | '}' :: cs5 => some ([((⟨k⟩ : String), v)], cs5)
            | _ => none
        | _ => none
    | _ => none

/-- Parse one record dictionary. -/
def parseRec (cs : List Char) : Option (Rec × List Char) :=
  match cs with
  | '{' :: '}' :: rest => some ([], rest)
  | '{' :: rest => parseEntriesGo (rest.length + 1) rest
  | _ => none

/-- Parse the non-empty item sequence of the list, up to the closing bracket.
The fuel bounds the number of items; callers pass the input length. -/
def parseItemsGo : Nat → List Char → Option (Data × List Char)
  | 0, _ => none
  | fuel + 1, cs =>
    match parseRec cs with
    | none => none
    | some (r, cs2) =>
      match cs2 with
      | ',' :: ' ' :: cs3 =>
        (parseItemsGo fuel cs3).map (fun p => (r :: p.1, p.2))
      | ']' :: cs3 => some ([r], cs3)
      | _ => none

/-- Parse a full record list. -/
def parseData (cs : List Char) : Option (Data × List Char) :=
  match cs with
  | '[' :: ']' :: rest => some ([], rest)
  | '[' :: rest => parseItemsGo (rest.length + 1) rest
  | _ => none

/-- Model of json.loads on the files this program writes: the parse must
consume the whole text. -/
def loads (s : String) : Option Data :=
  match parseData s.data with
  | some (d, []) => some d
  | _ => none

/-! ## The program's own functions

Each function returns (trace, outcome): the trace lists the effects that
happened before the function returned or the modelled exception escaped. -/

/-- Python ts.replace of every colon by a dash, as used for file names. -/
def replaceColons (s : String) : String :=
  ⟨s.data.map (fun c => if c = ':' then '-' else c)⟩

/-- write_json(data, subdir, prefix): builds the file name from the prefix
and the colon-free timestamp, tries to write the serialized data, and
catches any write error, logging it instead of raising.  The io argument is
the outcome of the underlying open/dump. -/
def write_json (data : Data) (subdir pre ts : String) (io : Except String Unit) :
    List Event × Except String Unit :=
  let filename := pre ++ "_" ++ replaceColons ts ++ ".json"
  match io with
  | Except.ok _ =>
    ([Event.fileWrite ⟨subdir, filename, dumps data⟩,
      Event.log LogLevel.info ("Saved to " ++ filename)], Except.ok ())
  | Except.error e =>
    ([Event.log LogLevel.error ("JSON write error: " ++ e)], Except.ok ())

/-- The record scan_wifi builds for one discovered network. -/
def wifiRecord (net : WifiNet) (ts : String) : Rec :=
  [("SSID", PyVal.vStr net.ssid), ("BSSID", PyVal.vStr net.bssid),
   ("Signal", PyVal.vInt net.signal), ("Frequency", PyVal.vInt net.freq),
   ("Timestamp", PyVal.vStr ts)]

/-- scan_wifi(): queries the interface, builds records, persists and returns
them.  There is no try/except in this function, so a raised error (an
Except.error scan outcome) escapes it. -/
def scan_wifi (out : Except String (List WifiNet)) (ts : String)
    (io : Except String Unit) : List Event × Except String Data :=
  match out with
  | Except.error e => ([], Except.error e)
  | Except.ok nets =>
    let data := nets.map (fun n => wifiRecord n ts)
    let w := write_json data "wifi_scans" "wifi" ts io
    match w.2 with
    | Except.ok _ => (w.1, Except.ok data)
    | Except.error e => (w.1, Except.error e)

/-- The record scan_bluetooth_classic builds for one discovered device. -/
def btRecord (d : BtDev) (ts : String) : Rec :=
  [("Address", PyVal.vStr d.addr), ("Name", PyVal.vStr d.name),
   ("Type", PyVal.vStr "Classic"), ("Timestamp", PyVal.vStr ts)]

/-- scan_bluetooth_classic(): whole body inside try/except, so any raised
error is logged and an empty list is returned. -/
def scan_bluetooth_classic (out : Except String (List BtDev)) (ts : String)
    (io : Except String Unit) : List Event × Except String Data :=
  match out with
  | Except.error e =>
    ([Event.log LogLevel.error ("Bluetooth Classic scan error: " ++ e)], Except.ok [])
  | Except.ok devs =>
    let data := devs.map (fun d => btRecord d ts)
    let w := write_json data "bt_scans" "classic" ts io
    match w.2 with
    | Except.ok _ => (w.1, Except.ok data)
    | Except.error e =>
      (w.1 ++ [Event.log LogLevel.error ("Bluetooth Classic scan error: " ++ e)],
       Except.ok [])

/-- The record scan_bluetooth_ble builds for one discovered device; a falsy
name (None or the empty string) becomes the placeholder. -/
def bleRecord (d : BleDev) (ts : String) : Rec :=
  [("Address", PyVal.vStr d.address),
   ("Name", PyVal.vStr (match d.name with
     | none => "Unknown"
     | some s => if s = "" then "Unknown" else s)),
   ("RSSI", PyVal.vInt d.rssi), ("Type", PyVal.vStr "BLE"),
   ("Timestamp", PyVal.vStr ts)]

/-- scan_bluetooth_ble(): whole body inside try/except, so any raised error
is logged and an empty list is returned. -/
def scan_bluetooth_ble (out : Except String (List BleDev)) (ts : String)
    (io : Except String Unit) : List Event × Except String Data :=
  match out with
  | Except.error e =>
    ([Event.log LogLevel.error ("BLE scan error: " ++ e)], Except.ok [])
  | Except.ok devs =>
    let data := devs.map (fun d => bleRecord d ts)
    let w := write_json data "bt_scans" "ble" ts io
    match w.2 with
    | Except.ok _ => (w.1, Except.ok data)
    | Except.error e =>
      (w.1 ++ [Event.log LogLevel.error ("BLE scan error: " ++ e)], Except.ok [])

/-- communicate_bluetooth(addr): one RFCOMM connect/send/recv inside
try/except; a failure is logged and None is returned, nothing is raised.
The out argument is the outcome of the socket exchange (the decoded
response on success). -/
def communicate_bluetooth (out : Except String String) (addr : PyVal)
    (ts : String) : List Event × Option Rec :=
  match out with
  | Except.ok resp =>
    ([Event.btAttempt addr],
     some [("to", addr), ("sent", PyVal.vStr "Hello Bluetooth Device!"),
           ("received", PyVal.vStr (pyStrip resp)), ("time", PyVal.vStr ts)])
  | Except.error e =>
    ([Event.btAttempt addr,
      Event.log LogLevel.error ("Bluetooth comm error: " ++ e)], none)

/-- communicate_wifi(bssid_or_ip): one subprocess ping with count 2 inside
try/except; a failure is logged and None is returned, nothing is raised.
The out argument is the outcome of subprocess.run. -/
def communicate_wifi (out : Except String ProcResult) (target : PyVal)
    (ts : String) : List Event × Option Rec :=
  match out with
  | Except.ok pr =>
    ([Event.pingAttempt target ["ping", "-c", "2"]],
     some [("target", target),
           ("status", PyVal.vStr (if pr.returncode = 0 then "reachable" else "unreachable")),
           ("stdout", PyVal.vStr pr.stdout), ("stderr", PyVal.vStr pr.stderr),
           ("time", PyVal.vStr ts)])
  | Except.error e =>
    ([Event.pingAttempt target ["ping", "-c", "2"],
      Event.log LogLevel.error ("Wi-Fi ping error: " ++ e)], none)

/-- The Bluetooth loop of auto_communicate: one attempt per device, null
results dropped; a KeyError on a malformed record escapes the loop. -/
def btCommLoop (btComm : PyVal → Except String String) (ts : String) :
    Data → List Event × Except String (List Rec)
  | [] => ([], Except.ok [])
  | device :: rest =>
    match getItem device "Address" with
    | Except.error e => ([], Except.error e)
    | Except.ok addr =>
      let c := communicate_bluetooth (btComm addr) addr ts
      match btCommLoop btComm ts rest with
      | (evs2, Except.ok results) =>
        (c.1 ++ evs2, Except.ok (match c.2 with
          | some r => r :: results
          | none => results))
      | (evs2, Except.error e) => (c.1 ++ evs2, Except.error e)

/-- The Wi-Fi loop of auto_communicate: an attempt only for access points
whose BSSID value is truthy; null results dropped. -/
def wifiCommLoop (ping : PyVal → Except String ProcResult) (ts : String) :
    Data → List Event × Except String (List Rec)
  | [] => ([], Except.ok [])
  | ap :: rest =>
    match getItem ap "BSSID" with
    | Except.error e => ([], Except.error e)
    | Except.ok b =>
      if pyTruthy b then
        let c := communicate_wifi (ping b) b ts
        match wifiCommLoop ping ts rest with
        | (evs2, Except.ok results) =>
          (c.1 ++ evs2, Except.ok (match c.2 with
            | some r => r :: results
            | none => results))
        | (evs2, Except.error e) => (c.1 ++ evs2, Except.error e)
      else
        wifiCommLoop ping ts rest

/-- auto_communicate(bt_classic, wifi_list): Bluetooth attempts, persist,
Wi-Fi attempts, persist. -/
def auto_communicate (btComm : PyVal → Except String String)
    (ping : PyVal → Except String ProcResult)
    (bt_classic wifi_list : Data) (ts : String) (io : Except String Unit) :
    List Event × Except String Unit :=
  match btCommLoop btComm ts bt_classic with
  | (evs, Except.error e) => (evs, Except.error e)
  | (evs, Except.ok btResults) =>
    let w := write_json btResults "comm_logs" "bt_comm" ts io
    match w.2 with
    | Except.error e => (evs ++ w.1, Except.error e)
    | Except.ok _ =>
      match wifiCommLoop ping ts wifi_list with
      | (evs2, Except.error e) => (evs ++ w.1 ++ evs2, Except.error e)
      | (evs2, Except.ok wifiResults) =>
        let w2 := write_json wifiResults "comm_logs" "wifi_comm" ts io
        (evs ++ w.1 ++ evs2 ++ w2.1, w2.2)

/-- interactive_terminal(bt_classic, wifi_list): manual target selection.
choice is the menu input; selInput the device-number input.  int() parse
errors, IndexError from the subscript, and KeyError all escape (no
try/except here); the communication helpers themselves never raise. -/
def interactive_terminal (btComm : PyVal → Except String String)
    (ping : PyVal → Except String ProcResult)
    (choice selInput : String) (bt_classic wifi_list : Data) (ts : String) :
    List Event × Except String Unit :=
  if choice = "1" then
    match pyInt selInput with
    | Except.error e => ([], Except.error e)
    | Except.ok k =>
      match pyIndex bt_classic (k - 1) with
      | Except.error e => ([], Except.error e)
      | Except.ok dev =>
        match getItem dev "Address" with
        | Except.error e => ([], Except.error e)
        | Except.ok addr =>
          ((communicate_bluetooth (btComm addr) addr ts).1, Except.ok ())
  else if choice = "2" then
    match pyInt selInput with
    | Except.error e => ([], Except.error e)
    | Except.ok k =>
      match pyIndex wifi_list (k - 1) with
      | Except.error e => ([], Except.error e)
      | Except.ok net =>
        match getItem net "BSSID" with
        | Except.error e => ([], Except.error e)
        | Except.ok b =>
          ((communicate_wifi (ping b) b ts).1, Except.ok ())
  else
    ([], Except.ok ())

/-- Outcome oracles for one full cycle: what each external call returns. -/
structure Outcomes : Type where
  wifiScan : Except String (List WifiNet)
  btScan : Except String (List BtDev)
  bleScan : Except String (List BleDev)
  btComm : PyVal → Except String String
  ping : PyVal → Except String ProcResult
  ioWrite : Except String Unit

/-- scan_and_communicate(interactive): Wi-Fi scan, classic scan, BLE scan
(awaited synchronously), automatic communication, then optionally the
manual prompt.  A raised error anywhere propagates from the point it
occurs; effects that already happened stay in the trace. -/
def scan_and_communicate (o : Outcomes) (interactive : Bool)
    (choice selInput : String) (ts : String) : List Event × Except String Unit :=
  let start := [Event.log LogLevel.info "Starting full scan & communication cycle"]
  let sw := scan_wifi o.wifiScan ts o.ioWrite
  match sw.2 with
  | Except.error e => (start ++ sw.1, Except.error e)
  | Except.ok wifi_list =>
    let sb := scan_bluetooth_classic o.btScan ts o.ioWrite
    match sb.2 with
    | Except.error e => (start ++ sw.1 ++ sb.1, Except.error e)
    | Except.ok bt_classic =>
      let sl := scan_bluetooth_ble o.bleScan ts o.ioWrite
      match sl.2 with
      | Except.error e => (start ++ sw.1 ++ sb.1 ++ sl.1, Except.error e)
      | Except.ok _ =>
        let ac := auto_communicate o.btComm o.ping bt_classic wifi_list ts o.ioWrite
        match ac.2 with
        | Except.error e => (start ++ sw.1 ++ sb.1 ++ sl.1 ++ ac.1, Except.error e)
        | Except.ok _ =>
          if interactive then
            let it := interactive_terminal o.btComm o.ping choice selInput
              bt_classic wifi_list ts
            (start ++ sw.1 ++ sb.1 ++ sl.1 ++ ac.1 ++ it.1, it.2)
          else
            (start ++ sw.1 ++ sb.1 ++ sl.1 ++ ac.1, Except.ok ())

/-! ## The hourly scheduler

hourly_scheduler() registers the cycle job with schedule.every(1).hours.do,
which sets the job's next run to one hour after registration, then polls
schedule.run_pending() once per second forever.  Time is modelled in whole
seconds since scheduler start; run_pending runs the job when the current
time has reached its next-run time and then re-schedules it one hour later,
exactly as the schedule library does. -/

/-- One hour in seconds. -/
def hourSecs : Nat := 3600

/-- schedule.run_pending for the single registered job: whether the job ran
at this poll, and the job's next-run time afterwards. -/
def run_pending (now nextRun : Nat) : Bool × Nat :=
  if nextRun ≤ now then (true, now + hourSecs) else (false, nextRun)

/-- The polling loop, one step per second, accumulating (in reverse) the
times at which the cycle job was invoked. -/
def schedLoop : Nat → Nat → Nat → List Nat → List Nat
  | 0, _, _, acc => acc.reverse
  | steps + 1, t, nextRun, acc =>
    let p := run_pending t nextRun
    schedLoop steps (t + 1) p.2 (if p.1 then t :: acc else acc)

/-- The times (seconds since start) at which hourly_scheduler invokes the
scan-and-communicate cycle during its first steps seconds. -/
def hourlyRuns (steps : Nat) : List Nat := schedLoop steps 0 hourSecs []

/-! ## File-store view of a trace -/

/-- The files present after a trace of events runs against a store. -/
def applyEvents (fs : List WriteEvent) (evs : List Event) : List WriteEvent :=
  fs ++ evs.filterMap (fun e => match e with
    | Event.fileWrite w => some w
    | _ => none)

/-- The ping targets attempted in a trace, in order. -/
def pingTargets (evs : List Event) : List PyVal :=
  evs.filterMap (fun e => match e with
    | Event.pingAttempt t _ => some t
    | _ => none)

/-! ## Concrete oracles and records used to instantiate theorems -/

/-- A Bluetooth exchange oracle that always raises. -/
def oracleBtFail : PyVal → Except String String := fun _ => Except.error "bt down"

/-- A ping oracle that always raises. -/
def oraclePingFail : PyVal → Except String ProcResult := fun _ => Except.error "net down"

/-- A Bluetooth exchange oracle that always answers. -/
def oracleBtOk : PyVal → Except String String := fun _ => Except.ok "HI"

/-- A ping oracle whose process exits with status 1. -/
def oraclePingBad : PyVal → Except String ProcResult :=
  fun _ => Except.ok ⟨1, "", "Destination Host Unreachable"⟩

/-- A sample classic-Bluetooth record. -/
def devA : Rec := [("Address", PyVal.vStr "AA:01")]

/-- A second sample classic-Bluetooth record. -/
def devB : Rec := [("Address", PyVal.vStr "BB:02")]

/-- A sample access-point record with an empty BSSID. -/
def apEmpty : Rec := [("BSSID", PyVal.vStr "")]

/-- A sample access-point record with a non-empty BSSID. -/
def apOne : Rec := [("BSSID", PyVal.vStr "11:22")]

/-- Cycle oracles in which the Wi-Fi scan raises while the Bluetooth scans
would succeed and would discover one classic device. -/
def wifiFailOutcomes : Outcomes :=
  ⟨Except.error "boom", Except.ok [⟨"AA:01", "dev"⟩], Except.ok [],
   oracleBtOk, oraclePingBad, Except.ok ()⟩

/-! ## Round trip of the json model -/

lemma parseStrGo_escape (s rest : List Char) :
    parseStrGo (escapeChars s ++ '"' :: rest) = some (s, rest) := by
  induction s with
  | nil => simp [escapeChars, parseStrGo]
  | cons c cs ih =>
    by_cases hq : c = '"'
    · subst hq
      simp [escapeChars, parseStrGo, ih]
    · by_cases hb : c = '\\'
      · subst hb
        simp [escapeChars, parseStrGo, ih]
      · rw [escapeChars, if_neg (by simp [hq, hb])]
        simp only [List.singleton_append, List.cons_append]
        rw [parseStrGo.eq_def]
        split
        all_goals simp_all [ih]

lemma natDigits_lt (n : Nat) (h : n < 10) : natDigits n = [digitChar n] := by
  rw [natDigits]
  simp [h]

lemma natDigits_ge (n : Nat) (h : ¬ n < 10) :
    natDigits n = natDigits (n / 10) ++ [digitChar (n % 10)] := by
  rw [natDigits]
  simp [h]

lemma natBase_lt (n : Nat) (h : n < 10) : natBase n = 10 := by
  rw [natBase]
  simp [h]

lemma natBase_ge (n : Nat) (h : ¬ n < 10) : natBase n = 10 * natBase (n / 10) := by
  rw [natBase]
  simp [h]

lemma digitChar_facts (d : Nat) (h : d < 10) :
    isDigitC (digitChar d) = true ∧ digitVal (digitChar d) = d ∧
    digitChar d ≠ '"' ∧ digitChar d ≠ '-' ∧ digitChar d ≠ 'n' := by
  revert h
  revert d
  decide

lemma parseNatGo_digits (n : Nat) :
    ∀ acc rest, parseNatGo acc (natDigits n ++ rest) =
      parseNatGo (acc * natBase n + n) rest := by
  induction n using Nat.strong_induction_on with
  | _ n ih =>
    intro acc rest
    by_cases h : n < 10
    · rw [natDigits_lt n h, natBase_lt n h]
      simp [parseNatGo, (digitChar_facts n h).1, (digitChar_facts n h).2.1]
    · rw [natDigits_ge n h, natBase_ge n h, List.append_assoc, List.singleton_append]
      rw [ih (n / 10) (Nat.div_lt_self (by omega) (by omega)) acc]
      have h10 : n % 10 < 10 := Nat.mod_lt _ (by omega)
      rw [parseNatGo]
      simp only [(digitChar_facts _ h10).1, if_pos, (digitChar_facts _ h10).2.1]
      have : (acc * natBase (n / 10) + n / 10) * 10 + n % 10 =
          acc * (10 * natBase (n / 10)) + n := by
        have hdm := Nat.div_add_mod n 10
        ring_nf
        omega
      rw [this]

lemma parseNatGo_stop (n : Nat) (rest : List Char) (h : noDigitStart rest = true) :
    parseNatGo n rest = (n, rest) := by
  cases rest with
  | nil => simp [parseNatGo]
  | cons c cs =>
    simp only [noDigitStart, Bool.not_eq_true'] at h
    simp [parseNatGo, h]

lemma parseNat_digits (n : Nat) (rest : List Char) (h : noDigitStart rest = true) :
    parseNatGo 0 (natDigits n ++ rest) = (n, rest) := by
  rw [parseNatGo_digits n 0 rest, Nat.zero_mul, Nat.zero_add, parseNatGo_stop n rest h]

lemma natDigits_head (n : Nat) :
    ∃ d tl, natDigits n = digitChar d :: tl ∧ d < 10 := by
  induction n using Nat.strong_induction_on with
  | _ n ih =>
    by_cases h : n < 10
    · exact ⟨n, [], natDigits_lt n h, h⟩
    · obtain ⟨d, tl, heq, hd⟩ := ih (n / 10) (Nat.div_lt_self (by omega) (by omega))
      exact ⟨d, tl ++ [digitChar (n % 10)], by rw [natDigits_ge n h, heq]; simp, hd⟩

lemma string_mk_data (s : String) : (⟨s.data⟩ : String) = s := rfl

lemma parseVal_render (v : PyVal) (rest : List Char) (h : noDigitStart rest = true) :
    parseVal (renderVal v ++ rest) = some (v, rest) := by
  cases v with
  | vNull =>
    simp only [renderVal, List.cons_append, List.nil_append]
    rw [parseVal.eq_def]
    norm_num [isDigitC]
    rw [if_neg (by decide), if_neg (by decide), if_neg (by decide)]
  | vStr s =>
    simp only [renderVal, renderStr, List.cons_append, List.append_assoc,
      List.singleton_append]
    rw [parseVal.eq_def]
    simp [parseStrGo_escape, string_mk_data]
  | vInt n =>
    by_cases hn : n < 0
    · simp only [renderVal, renderInt, if_pos hn, List.cons_append]
      obtain ⟨d, tl, heq, hd⟩ := natDigits_head (-n).toNat
      rw [heq, List.cons_append, parseVal.eq_def]
      have h2 : isDigitC (digitChar d) = true := (digitChar_facts d hd).1
      simp only [reduceIte, h2, if_pos]
      rw [← List.cons_append, ← heq, parseNat_digits _ _ h]
      have hc : (((-n).toNat : Nat) : Int) = -n := Int.toNat_of_nonneg (by omega)
      simp [hc]
    · simp only [renderVal, renderInt, if_neg hn]
      obtain ⟨d, tl, heq, hd⟩ := natDigits_head n.toNat
      rw [heq, List.cons_append, parseVal.eq_def]
      have hfacts := digitChar_facts d hd
      simp only [if_neg hfacts.2.2.1, if_neg hfacts.2.2.2.1, hfacts.1, if_pos]
      rw [← List.cons_append, ← heq, parseNat_digits _ _ h]
      have hc : ((n.toNat : Nat) : Int) = n := Int.toNat_of_nonneg (by omega)
      simp [hc]

lemma renderEntriesRest_length (ps : List (String × PyVal)) :
    ps.length ≤ (renderEntriesRest ps).length := by
  induction ps with
  | nil => simp [renderEntriesRest]
  | cons q qs ih =>
    simp only [renderEntriesRest, List.length_cons, List.cons_append, List.length_append]
    omega
lemma parseEntries_render (ps : List (String × PyVal)) :
    ∀ (p : String × PyVal) (fuel : Nat) (rest : List Char), ps.length < fuel →
      parseEntriesGo fuel (renderEntry p ++ renderEntriesRest ps ++ '}' :: rest) =
        some (p :: ps, rest) := by
  induction ps with
  | nil =>
    intro p fuel rest hf
    cases fuel with
    | zero => omega
    | succ f =>
      simp only [renderEntriesRest, renderEntry, renderStr, List.append_assoc,
        List.cons_append, List.nil_append, List.singleton_append, List.append_nil]
      rw [parseEntriesGo]
      simp only [parseStrGo_escape]
      have hval := parseVal_render p.2 ('}' :: rest) (by simp [noDigitStart, isDigitC])
      rw [hval]
      simp [string_mk_data]
  | cons q qs ih =>
    intro p fuel rest hf
    cases fuel with
    | zero => omega
    | succ f =>
      have hrec := ih q f rest (by simpa using Nat.lt_of_succ_lt_succ hf)
      simp only [renderEntry, renderStr, List.append_assoc, List.cons_append,
        List.nil_append, List.singleton_append] at hrec
      simp only [renderEntriesRest, renderEntry, renderStr, List.append_assoc,
        List.cons_append, List.nil_append, List.singleton_append]
      rw [parseEntriesGo]
      simp only [parseStrGo_escape]
      have hval := parseVal_render p.2
        (',' :: ' ' :: '"' :: (escapeChars q.1.data ++ '"' :: ':' :: ' ' ::
          (renderVal q.2 ++ (renderEntriesRest qs ++ '}' :: rest))))
        (by simp [noDigitStart, isDigitC])
      rw [hval]
      simp only [hrec, Option.map_some]
      simp [string_mk_data]

lemma parseRec_render (r : Rec) (rest : List Char) :
    parseRec (renderRec r ++ rest) = some (r, rest) := by
  cases r with
  | nil => simp [renderRec, parseRec]
  | cons p ps =>
    simp only [renderRec, renderEntry, renderStr, List.append_assoc,
      List.cons_append, List.singleton_append, List.nil_append]
    rw [parseRec.eq_def]
    split
    · simp_all
    · rename_i restv hno hh ht
      injection ht with hh2 ht2
      subst ht2
      have hlen : ps.length < ('"' :: (escapeChars p.1.data ++
          '"' :: ':' :: ' ' :: (renderVal p.2 ++
            (renderEntriesRest ps ++ '}' :: rest)))).length + 1 := by
        have h1 := renderEntriesRest_length ps
        simp only [List.length_cons, List.length_append]
        omega
      have h := parseEntries_render ps p _ rest hlen
      simp only [renderEntry, renderStr, List.append_assoc, List.cons_append,
        List.nil_append, List.singleton_append] at h
      exact h
    · rename_i cs2 hno1 hno2
      exact (hno2 _ rfl).elim

lemma renderItemsRest_length (rs : Data) :
    rs.length ≤ (renderItemsRest rs).length := by
  induction rs with
  | nil => simp [renderItemsRest]
  | cons r rest ih =>
    simp only [renderItemsRest, List.length_cons, List.cons_append, List.length_append]
    omega

lemma parseItems_render (rs : Data) :
    ∀ (r : Rec) (fuel : Nat) (rest : List Char), rs.length < fuel →
      parseItemsGo fuel (renderRec r ++ renderItemsRest rs ++ ']' :: rest) =
        some (r :: rs, rest) := by
  induction rs with
  | nil =>
    intro r fuel rest hf
    cases fuel with
    | zero => omega
    | succ f =>
      rw [parseItemsGo]
      simp only [renderItemsRest, List.append_nil, List.nil_append, List.append_assoc]
      rw [parseRec_render]
      simp
  | cons q qs ih =>
    intro r fuel rest hf
    cases fuel with
    | zero => omega
    | succ f =>
      have hrec := ih q f rest (by simpa using Nat.lt_of_succ_lt_succ hf)
      simp only [List.append_assoc] at hrec
      rw [parseItemsGo]
      simp only [renderItemsRest, List.append_assoc, List.cons_append]
      rw [parseRec_render]
      simp [hrec]

lemma renderRec_head (r : Rec) : ∃ tl, renderRec r = '{' :: tl := by
  cases r with
  | nil => exact ⟨['}'], rfl⟩
  | cons p ps => exact ⟨_, rfl⟩

lemma parseData_render (d : Data) (rest : List Char) :
    parseData (renderData d ++ rest) = some (d, rest) := by
  cases d with
  | nil => simp [renderData, parseData]
  | cons r rs =>
    obtain ⟨tl, htl⟩ := renderRec_head r
    simp only [renderData, List.append_assoc, List.cons_append, List.singleton_append]
    rw [parseData.eq_def, htl]
    simp only [List.cons_append]
    split
    · simp_all
    · rename_i restv hno hh ht
      injection ht with hh2 ht2
      subst ht2
      rw [← List.cons_append, ← htl]
      have hlen : rs.length < (('{' :: tl) ++ (renderItemsRest rs ++ ']' :: rest)).length + 1 := by
        have h1 := renderItemsRest_length rs
        simp only [List.length_cons, List.length_append]
        omega
      rw [← htl] at hlen
      have h := parseItems_render rs r _ rest hlen
      simp only [List.append_assoc] at h
      exact h
    · rename_i cs2 hno1 hno2
      exact (hno2 _ rfl).elim

/-- The json model round-trips: the text written for a record set parses
back to that record set. -/
lemma loads_dumps (d : Data) : loads (dumps d) = some d := by
  have h := parseData_render d []
  rw [List.append_nil] at h
  simp [loads, dumps, h]

lemma schedLoop_quiet (a : Nat) :
    ∀ (b t nr : Nat) (acc : List Nat), t + a ≤ nr →
      schedLoop (a + b) t nr acc = schedLoop b (t + a) nr acc := by
  induction a with
  | zero => intro b t nr acc h; simp
  | succ a ih =>
    intro b t nr acc h
    have hstep : a + 1 + b = (a + b) + 1 := by omega
    rw [hstep, schedLoop]
    have hnr : ¬ nr ≤ t := by omega
    simp only [run_pending, if_neg hnr, Bool.false_eq_true, if_false]
    rw [ih b (t + 1) nr acc (by omega)]
    congr 1
    omega

lemma schedLoop_hours (m : Nat) :
    ∀ (t : Nat) (acc : List Nat),
      schedLoop (3600 * m) t (t + 3599) acc =
        acc.reverse ++ (List.range m).map (fun i => t + 3599 + 3600 * i) := by
  induction m with
  | zero => intro t acc; simp [schedLoop]
  | succ m ih =>
    intro t acc
    have hsplit : 3600 * (m + 1) = 3599 + ((3600 * m) + 1) := by ring_nf
    rw [hsplit, schedLoop_quiet 3599 ((3600 * m) + 1) t (t + 3599) acc (by omega)]
    rw [schedLoop]
    simp only [run_pending, if_pos le_rfl, if_true]
    have halign : t + 3599 + hourSecs = (t + 3600) + 3599 := by simp [hourSecs]
    have htick : t + 3599 + 1 = t + 3600 := by omega
    rw [halign, htick, ih (t + 3600) ((t + 3599) :: acc)]
    rw [List.range_succ_eq_map, List.map_cons, List.map_map]
    simp only [List.reverse_cons, List.append_assoc, List.singleton_append]
    congr 1
    congr 1
    apply List.map_congr_left
    intro i hi
    simp [Function.comp]
    omega

lemma hourlyRuns_quiet (s : Nat) (h : s ≤ 3600) : hourlyRuns s = [] := by
  have h2 := schedLoop_quiet s 0 0 3600 [] (by omega)
  simp only [Nat.add_zero, Nat.zero_add] at h2
  rw [hourlyRuns, hourSecs, h2, schedLoop]
  rfl

lemma hourlyRuns_hourly (m : Nat) :
    hourlyRuns (3601 + 3600 * m) = 3600 :: (List.range m).map (fun i => 7200 + 3600 * i) := by
  rw [hourlyRuns, hourSecs]
  have hsplit : 3601 + 3600 * m = 3600 + ((3600 * m) + 1) := by omega
  rw [hsplit, schedLoop_quiet 3600 ((3600 * m) + 1) 0 3600 [] (by omega)]
  simp only [Nat.zero_add]
  rw [schedLoop]
  simp only [run_pending, if_pos le_rfl, if_true]
  have halign : 3600 + hourSecs = 3601 + 3599 := by simp [hourSecs]
  have htick : (3600 : Nat) + 1 = 3601 := by omega
  rw [halign, htick, schedLoop_hours m 3601 [3600]]
  simp only [List.reverse_cons, List.reverse_nil, List.nil_append, List.singleton_append]

/-! ## Claim theorems -/

lemma pingTargets_append (a b : List Event) :
    pingTargets (a ++ b) = pingTargets a ++ pingTargets b := by
  simp [pingTargets, List.filterMap_append]

lemma pingTargets_comm_wifi (out : Except String ProcResult) (target : PyVal)
    (ts : String) : pingTargets (communicate_wifi out target ts).1 = [target] := by
  cases out <;> rfl

lemma applyEvents_comm_bt (fs : List WriteEvent) (out : Except String String)
    (addr : PyVal) (ts : String) :
    applyEvents fs (communicate_bluetooth out addr ts).1 = fs := by
  cases out <;> simp [communicate_bluetooth, applyEvents]

lemma applyEvents_comm_wifi (fs : List WriteEvent) (out : Except String ProcResult)
    (target : PyVal) (ts : String) :
    applyEvents fs (communicate_wifi out target ts).1 = fs := by
  cases out <;> simp [communicate_wifi, applyEvents]

/-- C1 (counterexample): the claim says every scan function swallows a
raised error and returns an empty result set; but scan_wifi has no
try/except, so a raised scan error escapes it, and in scan_and_communicate
that error aborts the cycle before the Bluetooth scans run. -/
theorem c1_counterexample :
    scan_wifi (Except.error "boom") "T" (Except.ok ()) = ([], Except.error "boom") ∧
    scan_and_communicate wifiFailOutcomes false "" "" "T" =
      ([Event.log LogLevel.info "Starting full scan & communication cycle"],
        Except.error "boom") := ⟨rfl, rfl⟩

/-- C1 (amended): the classic Bluetooth and BLE scan functions catch any
raised error, log it, and return an empty result set, so a failure there
does not block the rest of the cycle; the Wi-Fi scan function has no
error handling, so an error raised during the Wi-Fi scan escapes it (and
aborts the cycle before the other scan types run). -/
theorem c1_amended (e ts : String) (io : Except String Unit) :
    scan_bluetooth_classic (Except.error e) ts io =
      ([Event.log LogLevel.error ("Bluetooth Classic scan error: " ++ e)], Except.ok []) ∧
    scan_bluetooth_ble (Except.error e) ts io =
      ([Event.log LogLevel.error ("BLE scan error: " ++ e)], Except.ok []) ∧
    scan_wifi (Except.error e) ts io = ([], Except.error e) :=
  ⟨rfl, rfl, rfl⟩

/-- C2 (counterexample): the claim says the scheduler invokes the cycle
once immediately upon start, before the first one-hour interval elapses;
but during the whole first hour of polling (3600 one-second polls) the
scheduler performs no invocation at all. -/
theorem c2_counterexample : hourlyRuns 3600 = [] :=
  hourlyRuns_quiet 3600 (by omega)

/-- C2 (amended): in hourly mode the scheduler polls the pending-task
queue every second but does not invoke the cycle immediately: no
invocation happens in the first hour, the first invocation occurs one
hour after start, and invocations then recur on the fixed one-hour
interval indefinitely. -/
theorem c2_amended :
    (∀ s : Nat, s ≤ 3600 → hourlyRuns s = []) ∧
    (∀ m : Nat, hourlyRuns (3601 + 3600 * m) =
      3600 :: (List.range m).map (fun i => 7200 + 3600 * i)) :=
  ⟨hourlyRuns_quiet, hourlyRuns_hourly⟩

/-- C2 witness: instances of the amended scheduler behaviour. -/
theorem c2_witness : 10 ≤ 3600 ∧ hourlyRuns 10 = [] :=
  ⟨by omega, c2_amended.1 10 (by omega)⟩

/-- C3: a successful persistence invocation writes exactly one file, named
by the prefix and the colon-free timestamp, and its content parses back to
the record set that was passed in; the replaced timestamp contains no
colon. -/
theorem c3_persistence_roundtrip (data : Data) (subdir pre ts : String) :
    write_json data subdir pre ts (Except.ok ()) =
      ([Event.fileWrite ⟨subdir, pre ++ "_" ++ replaceColons ts ++ ".json", dumps data⟩,
        Event.log LogLevel.info ("Saved to " ++ (pre ++ "_" ++ replaceColons ts ++ ".json"))],
       Except.ok ()) ∧
    loads (dumps data) = some data ∧
    (replaceColons ts).data.all (fun c => c != ':') = true := by
  refine ⟨rfl, loads_dumps data, ?_⟩
  simp only [replaceColons, List.all_eq_true, List.mem_map]
  rintro x ⟨c, hc, rfl⟩
  by_cases h : c = ':'
  · simp [h]
  · simp [h]

/-- C4: a failing write inside write_json is logged at error severity, no
file event is produced, and no exception escapes the helper for any write
outcome. -/
theorem c4_write_failure_contained (data : Data) (subdir pre ts e : String) :
    write_json data subdir pre ts (Except.error e) =
      ([Event.log LogLevel.error ("JSON write error: " ++ e)], Except.ok ()) ∧
    (∀ io : Except String Unit, (write_json data subdir pre ts io).2 = Except.ok ()) := by
  refine ⟨rfl, ?_⟩
  intro io
  cases io <;> rfl

/-- C5: a Wi-Fi communication attempt runs the external ping process with
count argument 2 (two ICMP echo requests), and the resulting record's
status field is "unreachable" exactly when the process exit status is
non-zero. -/
theorem c5_ping_reachability (pr : ProcResult) (target : PyVal) (ts : String) :
    communicate_wifi (Except.ok pr) target ts =
      ([Event.pingAttempt target ["ping", "-c", "2"]],
       some [("target", target),
             ("status", PyVal.vStr (if pr.returncode = 0 then "reachable" else "unreachable")),
             ("stdout", PyVal.vStr pr.stdout), ("stderr", PyVal.vStr pr.stderr),
             ("time", PyVal.vStr ts)]) ∧
    ((if pr.returncode = 0 then "reachable" else "unreachable") = "unreachable" ↔
      pr.returncode ≠ 0) := by
  refine ⟨rfl, ?_⟩
  by_cases h : pr.returncode = 0
  · rw [if_pos h]
    simp [h]
  · rw [if_neg h]
    simp [h]

/-- C6: a failing single-target communication attempt (Bluetooth RFCOMM or
Wi-Fi ping) yields a null record, logs the failure, is omitted from the
collected result list, and the loop still processes the remaining
targets. -/
theorem c6_comm_failure_isolated (btComm : PyVal → Except String String)
    (ping : PyVal → Except String ProcResult) (ts e e2 : String) (a b : PyVal)
    (device ap : Rec) (rest restW : Data)
    (hA : getItem device "Address" = Except.ok a)
    (hOut : btComm a = Except.error e)
    (hB : getItem ap "BSSID" = Except.ok b)
    (hTruthy : pyTruthy b = true)
    (hPing : ping b = Except.error e2) :
    communicate_bluetooth (btComm a) a ts =
      ([Event.btAttempt a, Event.log LogLevel.error ("Bluetooth comm error: " ++ e)],
       none) ∧
    btCommLoop btComm ts (device :: rest) =
      ([Event.btAttempt a, Event.log LogLevel.error ("Bluetooth comm error: " ++ e)] ++
        (btCommLoop btComm ts rest).1, (btCommLoop btComm ts rest).2) ∧
    wifiCommLoop ping ts (ap :: restW) =
      ([Event.pingAttempt b ["ping", "-c", "2"],
        Event.log LogLevel.error ("Wi-Fi ping error: " ++ e2)] ++
        (wifiCommLoop ping ts restW).1, (wifiCommLoop ping ts restW).2) := by
  refine ⟨by rw [hOut]; rfl, ?_, ?_⟩
  · rw [btCommLoop, hA]
    dsimp only
    rw [hOut]
    cases hrec : btCommLoop btComm ts rest with
    | mk evs2 res =>
      cases res <;> simp [communicate_bluetooth]
  · rw [wifiCommLoop, hB]
    dsimp only
    rw [if_pos hTruthy, hPing]
    cases hrec : wifiCommLoop ping ts restW with
    | mk evs2 res =>
      cases res <;> simp [communicate_wifi]

/-- C6 witness: one failing Bluetooth device and one failing reachable
access point, each followed by an empty remainder. -/
theorem c6_witness :
    communicate_bluetooth (oracleBtFail (PyVal.vStr "AA:01")) (PyVal.vStr "AA:01") "T" =
      ([Event.btAttempt (PyVal.vStr "AA:01"),
        Event.log LogLevel.error "Bluetooth comm error: bt down"], none) ∧
    btCommLoop oracleBtFail "T" [devA] =
      ([Event.btAttempt (PyVal.vStr "AA:01"),
        Event.log LogLevel.error "Bluetooth comm error: bt down"] ++
        (btCommLoop oracleBtFail "T" []).1, (btCommLoop oracleBtFail "T" []).2) ∧
    wifiCommLoop oraclePingFail "T" [apOne] =
      ([Event.pingAttempt (PyVal.vStr "11:22") ["ping", "-c", "2"],
        Event.log LogLevel.error "Wi-Fi ping error: net down"] ++
        (wifiCommLoop oraclePingFail "T" []).1, (wifiCommLoop oraclePingFail "T" []).2) :=
  c6_comm_failure_isolated oracleBtFail oraclePingFail "T" "bt down" "net down"
    (PyVal.vStr "AA:01") (PyVal.vStr "11:22") devA apOne [] []
    rfl rfl rfl rfl rfl

/-- C7: with zero discovered devices of both types the communication phase
produces empty result lists and still persists both (empty) files; with
zero devices of one type the file for that type is still written with the
serialized empty list. -/
theorem c7_empty_scan_still_persists (btComm : PyVal → Except String String)
    (ping : PyVal → Except String ProcResult) (ts : String) (wifi bt : Data)
    (evs : List Event) (btRes : List Rec)
    (hbt : btCommLoop btComm ts bt = (evs, Except.ok btRes)) :
    auto_communicate btComm ping [] [] ts (Except.ok ()) =
      ([Event.fileWrite ⟨"comm_logs", "bt_comm_" ++ replaceColons ts ++ ".json", dumps []⟩,
        Event.log LogLevel.info ("Saved to " ++ ("bt_comm_" ++ replaceColons ts ++ ".json")),
        Event.fileWrite ⟨"comm_logs", "wifi_comm_" ++ replaceColons ts ++ ".json", dumps []⟩,
        Event.log LogLevel.info ("Saved to " ++ ("wifi_comm_" ++ replaceColons ts ++ ".json"))],
       Except.ok ()) ∧
    loads (dumps []) = some [] ∧
    (∃ tail, (auto_communicate btComm ping [] wifi ts (Except.ok ())).1 =
      Event.fileWrite ⟨"comm_logs", "bt_comm_" ++ replaceColons ts ++ ".json", dumps []⟩ ::
        Event.log LogLevel.info ("Saved to " ++ ("bt_comm_" ++ replaceColons ts ++ ".json")) ::
        tail) ∧
    auto_communicate btComm ping bt [] ts (Except.ok ()) =
      (evs ++
        [Event.fileWrite ⟨"comm_logs", "bt_comm_" ++ replaceColons ts ++ ".json",
           dumps btRes⟩,
         Event.log LogLevel.info ("Saved to " ++ ("bt_comm_" ++ replaceColons ts ++ ".json")),
         Event.fileWrite ⟨"comm_logs", "wifi_comm_" ++ replaceColons ts ++ ".json", dumps []⟩,
         Event.log LogLevel.info ("Saved to " ++ ("wifi_comm_" ++ replaceColons ts ++ ".json"))],
       Except.ok ()) := by
  refine ⟨rfl, loads_dumps [], ?_, ?_⟩
  · rw [auto_communicate]
    cases hw : wifiCommLoop ping ts wifi with
    | mk evs2 res =>
      cases res with
      | error e => exact ⟨evs2, by simp [btCommLoop, write_json]⟩
      | ok wifiRes => exact ⟨evs2 ++ (write_json wifiRes "comm_logs" "wifi_comm" ts (Except.ok ())).1, by simp [btCommLoop, write_json]⟩
  · rw [auto_communicate, hbt]
    simp [write_json, wifiCommLoop]

/-- C7 witness: a Bluetooth loop over one answering device succeeds, and
persistence still writes the empty Wi-Fi file. -/
theorem c7_witness :
    auto_communicate oracleBtOk oraclePingBad [devA] [] "T" (Except.ok ()) =
      ([Event.btAttempt (PyVal.vStr "AA:01")] ++
        [Event.fileWrite ⟨"comm_logs", "bt_comm_" ++ replaceColons "T" ++ ".json",
           dumps [[("to", PyVal.vStr "AA:01"),
                   ("sent", PyVal.vStr "Hello Bluetooth Device!"),
                   ("received", PyVal.vStr "HI"), ("time", PyVal.vStr "T")]]⟩,
         Event.log LogLevel.info
           ("Saved to " ++ ("bt_comm_" ++ replaceColons "T" ++ ".json")),
         Event.fileWrite ⟨"comm_logs", "wifi_comm_" ++ replaceColons "T" ++ ".json",
           dumps []⟩,
         Event.log LogLevel.info
           ("Saved to " ++ ("wifi_comm_" ++ replaceColons "T" ++ ".json"))],
       Except.ok ()) :=
  (c7_empty_scan_still_persists oracleBtOk oraclePingBad "T" [] [devA]
    [Event.btAttempt (PyVal.vStr "AA:01")]
    [[("to", PyVal.vStr "AA:01"), ("sent", PyVal.vStr "Hello Bluetooth Device!"),
      ("received", PyVal.vStr "HI"), ("time", PyVal.vStr "T")]]
    (by rfl)).2.2.2

/-- C8: during automatic communication, a ping is attempted for a
discovered access point exactly when its BSSID string is non-empty;
access points with an empty BSSID are skipped. -/
theorem c8_ping_iff_nonempty_bssid (ping : PyVal → Except String ProcResult)
    (ts : String) (wifi : Data)
    (h : wifi.all (fun ap => match List.lookup "BSSID" ap with
      | some (PyVal.vStr _) => true
      | _ => false) = true) :
    pingTargets (wifiCommLoop ping ts wifi).1 =
      wifi.filterMap (fun ap => match List.lookup "BSSID" ap with
        | some (PyVal.vStr s) => if s = "" then none else some (PyVal.vStr s)
        | _ => none) := by
  induction wifi with
  | nil => rfl
  | cons ap rest ih =>
    rw [List.all_cons, Bool.and_eq_true] at h
    obtain ⟨hap, hrest⟩ := h
    have ih2 := ih hrest
    cases hl : List.lookup "BSSID" ap with
    | none => rw [hl] at hap; simp at hap
    | some v =>
      cases v with
      | vNull => rw [hl] at hap; simp at hap
      | vInt n => rw [hl] at hap; simp at hap
      | vStr s =>
        rw [wifiCommLoop,
          show getItem ap "BSSID" = Except.ok (PyVal.vStr s) from by simp [getItem, hl]]
        dsimp only
        by_cases hs : s = ""
        · subst hs
          rw [if_neg (by simp [pyTruthy])]
          simp only [List.filterMap_cons, hl, if_pos rfl]
          exact ih2
        · rw [if_pos (by simp [pyTruthy, hs])]
          cases hw : wifiCommLoop ping ts rest with
          | mk evs2 res =>
            rw [hw] at ih2
            cases res <;>
              simp [pingTargets_append, pingTargets_comm_wifi, List.filterMap_cons,
                hl, hs, ih2]

/-- C8 witness: one empty-BSSID and one non-empty-BSSID access point. -/
theorem c8_witness :
    pingTargets (wifiCommLoop oraclePingBad "T" [apEmpty, apOne]).1 =
      [apEmpty, apOne].filterMap (fun ap => match List.lookup "BSSID" ap with
        | some (PyVal.vStr s) => if s = "" then none else some (PyVal.vStr s)
        | _ => none) :=
  c8_ping_iff_nonempty_bssid oraclePingBad "T" [apEmpty, apOne] (by decide)

/-- C9: the manual-selection prompt never writes or rewrites a file: for
every menu input, device-number input (in range or not), and device lists,
the file store after the prompt equals the file store before it, even when
the prompt itself fails with an unhandled error. -/
theorem c9_manual_prompt_preserves_files (btComm : PyVal → Except String String)
    (ping : PyVal → Except String ProcResult) (choice selInput ts : String)
    (bt wifi : Data) (fs : List WriteEvent) :
    applyEvents fs (interactive_terminal btComm ping choice selInput bt wifi ts).1 = fs := by
  rw [interactive_terminal]
  by_cases h1 : choice = "1"
  · rw [if_pos h1]
    cases hpi : pyInt selInput with
    | error e => simp [applyEvents]
    | ok k =>
      cases hix : pyIndex bt (k - 1) with
      | error e => simp [hix, applyEvents]
      | ok dev =>
        cases hgt : getItem dev "Address" with
        | error e => simp [hix, hgt, applyEvents]
        | ok addr => simp [hix, hgt, applyEvents_comm_bt]
  · rw [if_neg h1]
    by_cases h2 : choice = "2"
    · rw [if_pos h2]
      cases hpi : pyInt selInput with
      | error e => simp [applyEvents]
      | ok k =>
        cases hix : pyIndex wifi (k - 1) with
        | error e => simp [hix, applyEvents]
        | ok net =>
          cases hgt : getItem net "BSSID" with
          | error e => simp [hix, hgt, applyEvents]
          | ok b => simp [hix, hgt, applyEvents_comm_wifi]
    · rw [if_neg h2]
      simp [applyEvents]

/-- C10: in the Bluetooth manual-selection branch with a non-empty device
list of length n, a device-number input from 1-n up to 0 does not raise
IndexError: it resolves through Python negative indexing, input 0 selects
the last listed device, and the single-target communication helper is
invoked on that device. -/
theorem c10_zero_selects_last (bt wifi : Data)
    (btComm : PyVal → Except String String) (ping : PyVal → Except String ProcResult)
    (ts s : String) (k : Int) (hne : bt ≠ [])
    (h1 : 1 - (bt.length : Int) ≤ k) (h2 : k ≤ 0) :
    (∃ d, pyIndex bt (k - 1) = Except.ok d) ∧
    pyIndex bt ((0 : Int) - 1) = Except.ok (bt.getLast hne) ∧
    (∀ a : PyVal, pyInt s = Except.ok 0 →
      getItem (bt.getLast hne) "Address" = Except.ok a →
      interactive_terminal btComm ping "1" s bt wifi ts =
        ((communicate_bluetooth (btComm a) a ts).1, Except.ok ())) := by
  have hlen : 0 < bt.length := List.length_pos.mpr hne
  have hb : pyIndex bt ((0 : Int) - 1) = Except.ok (bt.getLast hne) := by
    have hneg : ¬ (0 ≤ (0 : Int) - 1) := by omega
    have hge : -((bt.length : Int)) ≤ (0 : Int) - 1 := by omega
    have hidx : (((0 : Int) - 1) + (bt.length : Int)).toNat = bt.length - 1 := by omega
    rw [pyIndex, if_neg hneg, if_pos hge, hidx,
      List.get?_eq_get (show bt.length - 1 < bt.length from by omega),
      List.getLast_eq_get]
  refine ⟨?_, hb, ?_⟩
  · have hneg : ¬ (0 ≤ k - 1) := by omega
    have hge : -((bt.length : Int)) ≤ k - 1 := by omega
    have hlt : ((k - 1) + (bt.length : Int)).toNat < bt.length := by omega
    refine ⟨bt.get ⟨((k - 1) + (bt.length : Int)).toNat, hlt⟩, ?_⟩
    rw [pyIndex, if_neg hneg, if_pos hge, List.get?_eq_get hlt]
  · intro a hs ha
    rw [interactive_terminal, if_pos rfl, hs]
    dsimp only
    rw [hb]
    dsimp only
    rw [ha]

/-- C10 witness: with two listed devices, input 0 selects the second
(last) device and communicates with it. -/
theorem c10_witness :
    interactive_terminal oracleBtFail oraclePingFail "1" "0" [devA, devB] [] "T" =
      ((communicate_bluetooth (oracleBtFail (PyVal.vStr "BB:02"))
          (PyVal.vStr "BB:02") "T").1, Except.ok ()) :=
  (c10_zero_selects_last [devA, devB] [] oracleBtFail oraclePingFail "T" "0" 0
    (by decide) (by decide) (by decide)).2.2 (PyVal.vStr "BB:02") (by rfl) (by rfl)


end Scanner
